import Mathlib

/-!
Shallow embedding of `src/main.go` (a daily statistics bot for a federated
social network).  Pure functions of the source become Lean functions; the
program's interactions with the file system and the remote services are
modelled by explicit environment records whose fields hold the outcome each
external call would produce.  Go `int64` values are modelled as `Int` (the
counters involved are profile counts whose differences stay far from the
64-bit boundary, and no operation in the embedded code other than subtraction
of such counts touches them); Go strings are `String`; a Go runtime panic
(nil-pointer dereference) is modelled as `none` in an `Option`-valued result.
-/

namespace BskyHaiAlert

/-- `Config` (main.go:35-39): host, handle, password, loaded once at startup. -/
structure Config where
  Host : String
  Handle : String
  Password : String
deriving DecidableEq, Repr

/-- `Data` (main.go:41-45): the metrics snapshot of three `int64` counters. -/
structure Data where
  Posts : Int
  Follows : Int
  Followers : Int
deriving DecidableEq, Repr

/-- `Param` (main.go:47-55): the render parameters fed to the post template. -/
structure Param where
  Yesterday : String
  PostsCount : Int
  PostsCountDiff : Int
  FollowsCount : Int
  FollowsCountDiff : Int
  FollowersCount : Int
  FollowersCountDiff : Int
deriving DecidableEq, Repr

/-- `formatDiff` (main.go:248-258): zero renders as a plus-minus zero, a
positive diff as `+` followed by `%d`, a negative diff as plain `%d`
(Go's `%d` on a negative `int64` prints the minus sign itself, exactly as
`toString` on a negative `Int` does). -/
def formatDiff (diff : Int) : String :=
  if diff == 0 then "±0"
  else if diff > 0 then "+" ++ toString diff
  else toString diff

/-- The `Param` built inside the tick closure (main.go:97-105): absolute
counts are taken from the captured baseline `data`, each diff is the newly
fetched value minus the baseline value. -/
def mkParam (yesterday : String) (data newData : Data) : Param where
  Yesterday := yesterday
  PostsCount := data.Posts
  PostsCountDiff := newData.Posts - data.Posts
  FollowsCount := data.Follows
  FollowsCountDiff := newData.Follows - data.Follows
  FollowersCount := data.Followers
  FollowersCountDiff := newData.Followers - data.Followers

/-- `POST_FORMAT` (main.go:29-32) executed on a `Param` by `text/template`
(main.go:109): a four-line fixed template; `text/template` renders an `int64`
field in decimal and applies the registered `formatDiff` to each diff field.
The final double closing parenthesis reproduces the template literally. -/
def renderPost (p : Param) : String :=
  "【" ++ p.Yesterday ++ "の統計】\n" ++
  "ポスト数: " ++ toString p.PostsCount ++ "(" ++ formatDiff p.PostsCountDiff ++ ")\n" ++
  "フォロー数: " ++ toString p.FollowsCount ++ "(" ++ formatDiff p.FollowsCountDiff ++ ")\n" ++
  "フォロワー数: " ++ toString p.FollowersCount ++ "(" ++ formatDiff p.FollowersCountDiff ++ "))"

/-- The part of `bsky.ActorProfile` that `fetchData` touches: the three
counters are optional (`*int64`) in the wire schema. -/
structure Profile where
  PostsCount : Option Int
  FollowsCount : Option Int
  FollowersCount : Option Int
deriving DecidableEq, Repr

/-- `fetchData` (main.go:222-233).  `resp` is the outcome of the remote
`bsky.ActorGetProfile` call.  On a call error the function wraps it
(`failed to get profile: %w`).  On success the source builds the `Data`
literal by dereferencing the three optional pointers with no nil check
(`*profile.PostsCount`, ...): if any of them is absent that dereference is a
nil-pointer dereference, i.e. a runtime panic, modelled here as `none`;
`some` carries the value the function returns. -/
def fetchData (resp : Except String Profile) : Option (Except String Data) :=
  match resp with
  | .error e => some (.error ("failed to get profile: " ++ e))
  | .ok profile =>
    match profile.PostsCount, profile.FollowsCount, profile.FollowersCount with
    | some p, some f, some fl => some (.ok ⟨p, f, fl⟩)
    | _, _, _ => none

/-- The external outcomes one firing of the scheduled job can observe
(main.go:90-120): the remote profile response, the yesterday string
`time.Now().AddDate(0,0,-1).Format("2006-01-02")` computed at that moment,
the outcome of `tmpl.Execute` (always success for this fixed template, but
the source checks it), and the outcome of the remote `post` call. -/
structure TickEnv where
  profileResp : Except String Profile
  yesterday : String
  renderErr : Option String
  postResult : Except String Unit
deriving Repr

/-- How one tick of the closure at main.go:90-120 ends: each error branch
logs and returns; the success branch logs `post success`. -/
inductive TickResult where
  | fetchFailed (e : String)
  | renderFailed (e : String)
  | postFailed (e : String)
  | success (posted : String)
deriving DecidableEq, Repr

/-- The tick closure (main.go:90-120) over the captured baseline variable
`data`.  Returns the value of `data` after the tick together with the
outcome; `none` models a panic escaping the closure (only possible through
`fetchData`'s nil dereference).  Note the source never assigns `newData`
back to `data`: every branch, the success branch included, leaves the
captured baseline exactly as it was. -/
def runTick (env : TickEnv) (data : Data) : Option (Data × TickResult) :=
  match fetchData env.profileResp with
  | none => none
  | some (.error e) => some (data, .fetchFailed e)
  | some (.ok newData) =>
    let param := mkParam env.yesterday data newData
    match env.renderErr with
    | some e => some (data, .renderFailed e)
    | none =>
      match env.postResult with
      | .error e => some (data, .postFailed e)
      | .ok _ => some (data, .success (renderPost param))

/-- The fields of `xrpc.AuthInfo` (handle plus did and the two tokens). -/
structure AuthInfo where
  Handle : String
  Did : String
  AccessJwt : String
  RefreshJwt : String
deriving DecidableEq, Repr

/-- The part of `xrpc.Client` the program uses: host and auth state. -/
structure Client where
  Host : String
  Auth : AuthInfo
deriving DecidableEq, Repr

/-- A session returned by `ServerCreateSession` / `ServerRefreshSession`. -/
structure Session where
  Did : String
  AccessJwt : String
  RefreshJwt : String
deriving DecidableEq, Repr

/-- Contents of the credential cache file `auth_<hex(sha256(host_handle))>.json`
(only one such path is ever touched per run, so the file system is modelled
as that single slot): either empty (as left by `os.Create`'s truncation) or a
serialized `AuthInfo`. -/
inductive FileData where
  | empty
  | auth (a : AuthInfo)
deriving DecidableEq, Repr

/-- `json.Unmarshal` (main.go:151) on the bytes read from the cache file:
empty input fails with `unexpected end of JSON input`; a serialized
`AuthInfo` decodes to itself. -/
def jsonUnmarshalAuth : FileData → Except String AuthInfo
  | .empty => .error "unexpected end of JSON input"
  | .auth a => .ok a

/-- `saveSession` (main.go:204-215): marshals the auth record and writes it
at the start of the (freshly truncated) file, so the file now holds exactly
that record. -/
def saveSession (auth : AuthInfo) : FileData :=
  FileData.auth auth

/-- The outcomes of the external calls `newClient` can make during startup:
`osCreate` is the result of `os.Create` on the cache file, `refresh` the
result `ServerRefreshSession` would give for the stored refresh token, and
`create` the result `ServerCreateSession(handle, password)` would give. -/
structure IdEnv where
  osCreate : Except String Unit
  refresh : Except String Session
  create : Except String Session
deriving Repr

/-- `createSession` (main.go:186-202): calls `ServerCreateSession` with the
client's handle and the configured password; on success it adopts the
returned did and tokens into the client's auth; on error it wraps the error. -/
def createSession (env : IdEnv) (client : Client) (_cfg : Config) :
    Except String Client :=
  match env.create with
  | .error e => .error ("failed to create session: " ++ e)
  | .ok s => .ok ⟨client.Host, ⟨client.Auth.Handle, s.Did, s.AccessJwt, s.RefreshJwt⟩⟩

/-- `newClient` (main.go:126-184) over the cache-file slot `fsFile` (`none`
when no cache file exists).  Follows the source line by line: build the
client with only the handle set; `fileExists := existsFile(...)` BEFORE
`os.Create`, which then truncates the file to empty; in the exists branch,
`io.ReadAll` reads the just-created (hence empty) file and `json.Unmarshal`
decodes those bytes into the client's auth; on decode success the stored
refresh token is tried, adopting the refreshed session without re-saving, and
on refresh failure `createSession` plus `saveSession` run; in the no-cache
branch `createSession` plus `saveSession` run directly.  Returns the final
contents of the cache-file slot together with the client or the error. -/
def newClient (env : IdEnv) (cfg : Config) (fsFile : Option FileData) :
    Option FileData × Except String Client :=
  let client : Client := ⟨cfg.Host, ⟨cfg.Handle, "", "", ""⟩⟩
  let fileExists := fsFile.isSome
  match env.osCreate with
  | .error e => (fsFile, .error ("failed to open auth file: " ++ e))
  | .ok _ =>
    let fsFile1 : Option FileData := some FileData.empty
    if fileExists then
      let contents := fsFile1.getD FileData.empty
      match jsonUnmarshalAuth contents with
      | .error e => (fsFile1, .error ("failed to parse auth file: " ++ e))
      | .ok a =>
        let client1 : Client := ⟨client.Host, a⟩
        match env.refresh with
        | .error _ =>
          match createSession env client1 cfg with
          | .error e => (fsFile1, .error ("failed to create session: " ++ e))
          | .ok client2 => (some (saveSession client2.Auth), .ok client2)
        | .ok s =>
          (fsFile1,
           .ok ⟨client1.Host, ⟨client1.Auth.Handle, s.Did, s.AccessJwt, s.RefreshJwt⟩⟩)
    else
      match createSession env client cfg with
      | .error e => (fsFile1, .error ("failed to create session: " ++ e))
      | .ok client2 => (some (saveSession client2.Auth), .ok client2)

/-- Zero-pad a decimal rendering on the left to width `w`. -/
def padZeros (w : Nat) (s : String) : String :=
  if w ≤ s.length then s else String.mk (List.replicate (w - s.length) '0') ++ s

/-- Days since 1970-01-01 to the proleptic Gregorian (year, month, day);
the arithmetic matches what Go's `time.Time.Date` produces on the range the
program can encounter (Lean's `Int` division is floor division for the
positive divisors used here). -/
def civilFromDays (days : Int) : Int × Int × Int :=
  let z := days + 719468
  let era := z / 146097
  let doe := z % 146097
  let yoe := (doe - doe / 1460 + doe / 36524 - doe / 146096) / 365
  let doy := doe - (365 * yoe + yoe / 4 - yoe / 100)
  let mp := (5 * doy + 2) / 153
  let d := doy - (153 * mp + 2) / 5 + 1
  let m := mp + (if mp < 10 then 3 else -9)
  (yoe + era * 400 + (if m ≤ 2 then 1 else 0), m, d)

/-- Render the instant `ms` (milliseconds since the Unix epoch, in some wall
clock) through the layout constant `ISO8601 = "2006-01-02T15:04:05.000Z"`
(main.go:28).  In that Go layout the trailing `Z` is not followed by a zone
pattern, so it is a LITERAL character: `Format` prints the wall-clock fields
of the time value and then the letter Z, whatever zone the value carries. -/
def formatISO8601 (ms : Int) : String :=
  let days := ms / 86400000
  let rest := ms % 86400000
  let ymd := civilFromDays days
  let hh := rest / 3600000
  let mi := rest % 3600000 / 60000
  let ss := rest % 60000 / 1000
  let milli := rest % 1000
  padZeros 4 (toString ymd.1) ++ "-" ++ padZeros 2 (toString ymd.2.1) ++ "-" ++
    padZeros 2 (toString ymd.2.2) ++ "T" ++ padZeros 2 (toString hh) ++ ":" ++
    padZeros 2 (toString mi) ++ ":" ++ padZeros 2 (toString ss) ++ "." ++
    padZeros 3 (toString milli) ++ "Z"

/-- The record `post` (main.go:235-246) submits via `RepoCreateRecord`:
collection `app.bsky.feed.post`, repo = the client's did, and a `FeedPost`
whose `CreatedAt` is `time.Now().Format(ISO8601)`.  `time.Now()` carries the
process-local zone, so `Format` renders the LOCAL wall clock (UTC instant
plus zone offset) and appends the literal Z; `nowUtcMillis` is the current
instant and `tzOffsetMillis` the local zone's offset from UTC. -/
structure RepoCreateRecordInput where
  Collection : String
  Repo : String
  RecordText : String
  RecordCreatedAt : String
deriving DecidableEq, Repr

/-- See `RepoCreateRecordInput`: the input `post` builds. -/
def postInput (client : Client) (text : String)
    (nowUtcMillis tzOffsetMillis : Int) : RepoCreateRecordInput :=
  ⟨"app.bsky.feed.post", client.Auth.Did, text,
   formatISO8601 (nowUtcMillis + tzOffsetMillis)⟩

end BskyHaiAlert

namespace BskyHaiAlert

/-- Claim C5: `formatDiff 0` is the plus-minus-zero string; a positive diff
renders as `+` followed by its decimal form; a negative diff renders as its
plain signed decimal form. -/
theorem formatDiff_spec (d : Int) :
    (d = 0 → formatDiff d = "±0") ∧
    (0 < d → formatDiff d = "+" ++ toString d) ∧
    (d < 0 → formatDiff d = toString d) := by
  refine ⟨fun h => ?_, fun h => ?_, fun h => ?_⟩
  · simp [formatDiff, h]
  · simp [formatDiff, h, Int.ne_of_gt h, h.not_lt]
  · simp [formatDiff, h, Int.ne_of_lt h, h.not_lt]

/-- Witness for C5: the three branches of `formatDiff_spec`, each discharged
at a concrete diff. -/
theorem formatDiff_spec_witness :
    formatDiff 0 = "±0" ∧ formatDiff 5 = "+5" ∧ formatDiff (-2) = "-2" :=
  ⟨(formatDiff_spec 0).1 rfl,
   (formatDiff_spec 5).2.1 (by decide),
   (formatDiff_spec (-2)).2.2 (by decide)⟩

/-- Claim C6: the render parameters computed from an old snapshot `a` and a
new snapshot `b` carry exactly the componentwise differences `b - a`, and the
delta of a snapshot against itself is all-zero. -/
theorem mkParam_diffs (y : String) (a b : Data) :
    (mkParam y a b).PostsCountDiff = b.Posts - a.Posts ∧
    (mkParam y a b).FollowsCountDiff = b.Follows - a.Follows ∧
    (mkParam y a b).FollowersCountDiff = b.Followers - a.Followers ∧
    (mkParam y a a).PostsCountDiff = 0 ∧
    (mkParam y a a).FollowsCountDiff = 0 ∧
    (mkParam y a a).FollowersCountDiff = 0 := by
  refine ⟨rfl, rfl, rfl, ?_, ?_, ?_⟩ <;> simp [mkParam]

/-- Claim C10: in every rendered message the displayed absolute counters come
from the old baseline snapshot, while only the diff fields use the newly
fetched snapshot (as the difference new minus old). -/
theorem renderPost_uses_old_counts (y : String) (old nw : Data) :
    (mkParam y old nw).PostsCount = old.Posts ∧
    (mkParam y old nw).FollowsCount = old.Follows ∧
    (mkParam y old nw).FollowersCount = old.Followers ∧
    renderPost (mkParam y old nw) =
      "【" ++ y ++ "の統計】\n" ++
      "ポスト数: " ++ toString old.Posts ++
        "(" ++ formatDiff (nw.Posts - old.Posts) ++ ")\n" ++
      "フォロー数: " ++ toString old.Follows ++
        "(" ++ formatDiff (nw.Follows - old.Follows) ++ ")\n" ++
      "フォロワー数: " ++ toString old.Followers ++
        "(" ++ formatDiff (nw.Followers - old.Followers) ++ "))" :=
  ⟨rfl, rfl, rfl, rfl⟩

/-- Claim C4 (code bug, evaluated at the failing input): a profile response
with the followers counter absent makes `fetchData` dereference a nil pointer
and panic (`none`), instead of returning a `MissingFieldError` value; only a
failing remote call yields an error value (the wrapped upstream error). -/
theorem fetchData_missing_field_panics :
    fetchData (.ok ⟨some 1, some 2, none⟩) = none ∧
    fetchData (.error "boom") = some (.error "failed to get profile: boom") :=
  ⟨rfl, rfl⟩

/-- Claim C9: whenever the cache file exists (whatever it holds) and
`os.Create` succeeds, `newClient` truncates the file before reading it,
decodes the now-empty content, fails, and returns the decode error — for any
outcomes of the refresh and create-session calls (neither is reached) — and
the file slot is left holding the truncated, empty content. -/
theorem newClient_cache_present_always_fails (env : IdEnv) (cfg : Config)
    (fd : FileData) (h : env.osCreate = Except.ok ()) :
    newClient env cfg (some fd) =
      (some FileData.empty,
       Except.error "failed to parse auth file: unexpected end of JSON input") := by
  obtain ⟨oc, rf, cr⟩ := env
  dsimp only at h
  subst h
  rfl

/-- Witness for C9 at a concrete cache file and identity-service behaviour. -/
theorem newClient_cache_present_always_fails_witness :
    newClient ⟨Except.ok (), Except.ok ⟨"d", "a", "r"⟩, Except.ok ⟨"d2", "a2", "r2"⟩⟩
        ⟨"https://bsky.social", "alice", "pw"⟩
        (some (FileData.auth ⟨"alice", "did:plc:old", "acc-old", "ref-old"⟩)) =
      (some FileData.empty,
       Except.error "failed to parse auth file: unexpected end of JSON input") :=
  newClient_cache_present_always_fails _ _ _ rfl

/-- Claim C1 (code bug, evaluated at the failing input): cache file present
with valid serialized credentials and an identity service that would accept
the stored refresh token (`refresh` succeeds); the claim expects a refreshed
client and an untouched cache file, but `newClient` returns the decode error
(the refresh call is never reached) and the cache file has been truncated to
empty, its contents destroyed. -/
theorem newClient_valid_cache_refresh_unreached :
    newClient ⟨Except.ok (), Except.ok ⟨"did:plc:new", "acc-new", "ref-new"⟩,
               Except.ok ⟨"did:plc:c", "acc-c", "ref-c"⟩⟩
        ⟨"https://bsky.social", "alice", "pw"⟩
        (some (FileData.auth ⟨"alice", "did:plc:old", "acc-old", "ref-old"⟩)) =
      (some FileData.empty,
       Except.error "failed to parse auth file: unexpected end of JSON input") := rfl

/-- Claim C2 (code bug, evaluated at the failing input): cache file present
and an identity service that rejects the stored refresh token but would
accept handle+password (`create` succeeds); the claim expects fallback full
authentication, newly persisted credentials and a returned client, but
`newClient` returns the decode error (neither the refresh nor the fallback
authentication is ever reached) and the cache file is left empty. -/
theorem newClient_invalid_cache_fallback_unreached :
    newClient ⟨Except.ok (), Except.error "ExpiredToken",
               Except.ok ⟨"did:plc:c", "acc-c", "ref-c"⟩⟩
        ⟨"https://bsky.social", "alice", "pw"⟩
        (some (FileData.auth ⟨"alice", "did:plc:old", "acc-old", "ref-old"⟩)) =
      (some FileData.empty,
       Except.error "failed to parse auth file: unexpected end of JSON input") := rfl

/-- Claim C3 (code bug, evaluated at a failing input): a fully successful
tick over baseline (100, 10, 50) with fresh fetch (105, 10, 48) publishes its
message, yet the returned baseline is still (100, 10, 50) — the source never
assigns the new snapshot back to `data` — so a second successful tick
fetching (106, 10, 48) renders the cumulative diff +6 against the startup
snapshot instead of +1 against the previous tick's snapshot. -/
theorem tick_success_keeps_stale_baseline :
    runTick ⟨.ok ⟨some 105, some 10, some 48⟩, "2024-01-01", none, .ok ()⟩
        ⟨100, 10, 50⟩ =
      some (⟨100, 10, 50⟩, .success
        "【2024-01-01の統計】\nポスト数: 100(+5)\nフォロー数: 10(±0)\nフォロワー数: 50(-2))") ∧
    runTick ⟨.ok ⟨some 106, some 10, some 48⟩, "2024-01-02", none, .ok ()⟩
        ⟨100, 10, 50⟩ =
      some (⟨100, 10, 50⟩, .success
        "【2024-01-02の統計】\nポスト数: 100(+6)\nフォロー数: 10(±0)\nフォロワー数: 50(-2))") :=
  ⟨rfl, rfl⟩

/-- Claim C8: whenever the fetch does not panic (its result is an error value
or a snapshot), the tick closure returns — the process is not terminated —
and the captured baseline is exactly what it was before the tick; in
particular every failing tick leaves the next tick's diff baseline
unchanged. -/
theorem tick_returns_with_baseline_unchanged (env : TickEnv) (data : Data)
    (h : fetchData env.profileResp ≠ none) :
    ∃ r, runTick env data = some (data, r) := by
  unfold runTick
  cases hf : fetchData env.profileResp with
  | none => exact absurd hf h
  | some res =>
    cases res with
    | error e => exact ⟨.fetchFailed e, rfl⟩
    | ok nd =>
      cases hr : env.renderErr with
      | some e => exact ⟨.renderFailed e, rfl⟩
      | none =>
        cases hp : env.postResult with
        | error e => exact ⟨.postFailed e, rfl⟩
        | ok u => exact ⟨.success (renderPost (mkParam env.yesterday data nd)), rfl⟩

/-- Witness for C8: a tick whose fetch fails with a network-style error
returns with the baseline (1, 2, 3) unchanged. -/
theorem tick_returns_with_baseline_unchanged_witness :
    ∃ r, runTick ⟨Except.error "connection refused", "2024-01-01", none, Except.ok ()⟩
        ⟨1, 2, 3⟩ = some (⟨1, 2, 3⟩, r) :=
  tick_returns_with_baseline_unchanged _ _ (by simp [fetchData])

/-- Claim C7 (code bug, evaluated at the failing input): at the instant
1970-01-01T00:00:00.000 UTC in a process whose local zone is UTC+9, the
published record's `CreatedAt` is the local wall clock `09:00:00` with a
literal Z appended — a string that claims to be UTC but differs from the
actual UTC rendering of that instant. -/
theorem post_createdAt_is_local_not_utc :
    (postInput ⟨"https://bsky.social", ⟨"alice", "did:plc:a", "acc", "ref"⟩⟩
        "hi" 0 32400000).RecordCreatedAt = "1970-01-01T09:00:00.000Z" ∧
    formatISO8601 0 = "1970-01-01T00:00:00.000Z" ∧
    ("1970-01-01T09:00:00.000Z" : String) ≠ "1970-01-01T00:00:00.000Z" :=
  ⟨rfl, rfl, by decide⟩

end BskyHaiAlert
